import Mathlib

/-!
Shallow embedding of the grading and analytics core of the
university-performance-analyzer repository (src/src/config.py,
src/src/grading.py, src/src/analytics.py, src/src/data_loader.py).

Python floats are modelled by `Rat`; every numeric value that actually
arises in the claims is an exact decimal, and Python's `round(x, k)`
agrees with the `round`-based decimal rounding used here on all values
appearing below (no half-way ties arise).  Python dicts whose iteration
order matters (the grade-boundary tables are scanned in insertion
order) are modelled by association lists in insertion order.
-/

namespace UPA

/-- `round(x, 3)` from Python: round to 3 decimal places. -/
def round3 (q : Rat) : Rat := ((round (q * 1000) : ℤ) : Rat) / 1000

/-- `round(x, 2)` from Python: round to 2 decimal places. -/
def round2 (q : Rat) : Rat := ((round (q * 100) : ℤ) : Rat) / 100

/-- `round(x, 1)` from Python: round to 1 decimal place. -/
def round1 (q : Rat) : Rat := ((round (q * 10) : ℤ) : Rat) / 10

/-! ## config.py -/

/-- `DEFAULT_GRADE_MAPPINGS["4.0"]` (src/src/config.py): grade label to
point value, in insertion order. -/
def mappings40 : List (String × Rat) :=
  [("A+", 4), ("A", 4), ("A-", 3.7),
   ("B+", 3.3), ("B", 3), ("B-", 2.7),
   ("C+", 2.3), ("C", 2), ("C-", 1.7),
   ("D+", 1.3), ("D", 1), ("F", 0)]

/-- `DEFAULT_GRADE_MAPPINGS["100"]` (src/src/config.py). -/
def mappings100 : List (String × Rat) :=
  [("A+", 95), ("A", 90), ("A-", 85),
   ("B+", 80), ("B", 75), ("B-", 70),
   ("C+", 65), ("C", 60), ("C-", 55),
   ("D+", 50), ("D", 45), ("F", 0)]

/-- `GRADE_BOUNDARIES["4.0"]` (src/src/config.py): grade label to the
inclusive mark range `(min, max)`, in insertion order. -/
def boundaries40 : List (String × Rat × Rat) :=
  [("A+", 97, 100), ("A", 93, 96), ("A-", 90, 92),
   ("B+", 87, 89), ("B", 83, 86), ("B-", 80, 82),
   ("C+", 77, 79), ("C", 73, 76), ("C-", 70, 72),
   ("D+", 67, 69), ("D", 63, 66), ("F", 0, 62)]

/-- `GRADE_BOUNDARIES["100"]` (src/src/config.py). -/
def boundaries100 : List (String × Rat × Rat) :=
  [("A+", 95, 100), ("A", 90, 94), ("A-", 85, 89),
   ("B+", 80, 84), ("B", 75, 79), ("B-", 70, 74),
   ("C+", 65, 69), ("C", 60, 64), ("C-", 55, 59),
   ("D+", 50, 54), ("D", 45, 49), ("F", 0, 44)]

/-- `get_grade_mapping` (src/src/config.py): `.get(scale, default "4.0")`. -/
def get_grade_mapping (scale : String) : List (String × Rat) :=
  if scale = "4.0" then mappings40
  else if scale = "100" then mappings100
  else mappings40

/-- `get_grade_boundaries` (src/src/config.py). -/
def get_grade_boundaries (scale : String) : List (String × Rat × Rat) :=
  if scale = "4.0" then boundaries40
  else if scale = "100" then boundaries100
  else boundaries40

/-! ## grading.py: GradeScale -/

/-- The state of a `GradeScale` instance (src/src/grading.py, class
`GradeScale`). -/
structure GradeScale where
  scale_type : String
  grade_mappings : List (String × Rat)
  grade_boundaries : List (String × Rat × Rat)
  passing_grade : String
deriving Repr, DecidableEq

/-- The in-memory custom-configuration dictionary passed to
`GradeScale.__init__`: a key is either present (`some`) or absent
(`none`). -/
structure ConfigDoc where
  cfg_scale_type : Option String
  cfg_grade_mappings : Option (List (String × Rat))
  cfg_grade_boundaries : Option (List (String × Rat × Rat))
  cfg_passing_grade : Option String
deriving Repr, DecidableEq

/-- `GradeScale._apply_custom_config` (src/src/grading.py): override each
field whose key is present in the config (`scale_type` is never read). -/
def applyCustomConfig (s : GradeScale) (c : ConfigDoc) : GradeScale :=
  let s := match c.cfg_grade_mappings with
    | some m => { s with grade_mappings := m }
    | none => s
  let s := match c.cfg_grade_boundaries with
    | some b => { s with grade_boundaries := b }
    | none => s
  match c.cfg_passing_grade with
  | some p => { s with passing_grade := p }
  | none => s

/-- `GradeScale.__init__` (src/src/grading.py): presets from the config
tables, `passing_grade = "D"`, then the optional custom config. -/
def mkGradeScale (scale_type : String) (custom : Option ConfigDoc) : GradeScale :=
  let base : GradeScale :=
    { scale_type := scale_type
      grade_mappings := get_grade_mapping scale_type
      grade_boundaries := get_grade_boundaries scale_type
      passing_grade := "D" }
  match custom with
  | some c => applyCustomConfig base c
  | none => base

/-- `DEFAULT_4_0_SCALE = GradeScale(scale_type="4.0")` (src/src/grading.py). -/
def scale40 : GradeScale := mkGradeScale "4.0" none

/-- `GradeScale.marks_to_grade` (src/src/grading.py): scan the boundary
list in order, return the first grade whose inclusive range contains the
marks, else "F".  (The Python NaN/non-numeric guard also returns "F";
`Rat` has no NaN, so that branch has no counterpart here.) -/
def marks_to_grade (s : GradeScale) (m : Rat) : String :=
  match s.grade_boundaries.find? (fun b => decide (b.2.1 ≤ m) && decide (m ≤ b.2.2)) with
  | some b => b.1
  | none => "F"

/-- `GradeScale.grade_to_points` (src/src/grading.py): `0.0` for an empty
(falsy) grade or a grade missing from `grade_mappings`. -/
def grade_to_points (s : GradeScale) (g : String) : Rat :=
  if g = "" then 0
  else match s.grade_mappings.lookup g with
    | some p => p
    | none => 0

/-- `GradeScale.marks_to_points` (src/src/grading.py). -/
def marks_to_points (s : GradeScale) (m : Rat) : Rat :=
  grade_to_points s (marks_to_grade s m)

/-- `GradeScale.is_passing_grade` (src/src/grading.py): false for an empty
grade; if `passing_grade` is a key of `grade_boundaries`, compare point
values; otherwise any grade other than "F" passes. -/
def is_passing_grade (s : GradeScale) (g : String) : Bool :=
  if g = "" then false
  else if s.grade_boundaries.any (fun b => decide (b.1 = s.passing_grade)) then
    decide (grade_to_points s g ≥ grade_to_points s s.passing_grade)
  else decide (g ≠ "F")

/-- A node of the YAML document graph written by `yaml.dump` and read by
`yaml.safe_load`.  `yaml.dump` with the default `Dumper` serializes a
Python tuple as a sequence tagged `tag:yaml.org,2002:python/tuple`
(`Representer.represent_tuple`), while a list becomes a plain untagged
sequence; the `ytupleSeq` constructor records that tag.  Mapping keys
are modelled as strings, the only key type the code ever writes. -/
inductive YamlNode where
  | ystr (s : String)
  | ynum (q : Rat)
  | yseq (items : List YamlNode)
  | ytupleSeq (items : List YamlNode)
  | ymap (entries : List (String × YamlNode))

/-- The Python value constructed by a successful `yaml.safe_load`:
plain strings, numbers, lists and dictionaries. -/
inductive PyValue where
  | pstr (s : String)
  | pnum (q : Rat)
  | plist (items : List PyValue)
  | pdict (entries : List (String × PyValue))

mutual

/-- `yaml.safe_load` (src/src/grading.py, `from_yaml`): the
`SafeConstructor` builds plain strings, numbers, lists and dicts, and
raises `ConstructorError` for the `!!python/tuple` tag, for which it has
no constructor. -/
def safe_load : YamlNode → Except String PyValue
  | YamlNode.ystr s => Except.ok (PyValue.pstr s)
  | YamlNode.ynum q => Except.ok (PyValue.pnum q)
  | YamlNode.yseq items =>
    match safeLoadList items with
    | Except.ok vs => Except.ok (PyValue.plist vs)
    | Except.error e => Except.error e
  | YamlNode.ytupleSeq _ =>
    Except.error
      "could not determine a constructor for the tag tag:yaml.org,2002:python/tuple"
  | YamlNode.ymap entries =>
    match safeLoadEntries entries with
    | Except.ok vs => Except.ok (PyValue.pdict vs)
    | Except.error e => Except.error e

/-- `safe_load` over the items of a sequence, failing on the first bad
item. -/
def safeLoadList : List YamlNode → Except String (List PyValue)
  | [] => Except.ok []
  | n :: rest =>
    match safe_load n, safeLoadList rest with
    | Except.ok v, Except.ok vs => Except.ok (v :: vs)
    | Except.error e, _ => Except.error e
    | _, Except.error e => Except.error e

/-- `safe_load` over the entries of a mapping, failing on the first bad
value. -/
def safeLoadEntries : List (String × YamlNode) → Except String (List (String × PyValue))
  | [] => Except.ok []
  | (k, n) :: rest =>
    match safe_load n, safeLoadEntries rest with
    | Except.ok v, Except.ok vs => Except.ok ((k, v) :: vs)
    | Except.error e, _ => Except.error e
    | _, Except.error e => Except.error e

end

/-- `GradeScale.export_config` (src/src/grading.py): `yaml.dump` of the
four-key config dict.  The boundary ranges of every scale this
repository constructs are Python tuples (both preset tables and every
custom config in the code use tuples, and `from_yaml` never completes to
supply list-valued ones), so each range is written as a
`!!python/tuple`-tagged sequence.  (`yaml.dump` also sorts mapping keys
alphabetically; key order does not affect the loaded dictionaries and is
not modelled.) -/
def export_config (s : GradeScale) : YamlNode :=
  YamlNode.ymap
    [("scale_type", YamlNode.ystr s.scale_type),
     ("grade_mappings",
       YamlNode.ymap (s.grade_mappings.map (fun p => (p.1, YamlNode.ynum p.2)))),
     ("grade_boundaries",
       YamlNode.ymap (s.grade_boundaries.map (fun b =>
         (b.1, YamlNode.ytupleSeq [YamlNode.ynum b.2.1, YamlNode.ynum b.2.2])))),
     ("passing_grade", YamlNode.ystr s.passing_grade)]

/-- Read a successfully loaded document back into the constructor's
custom-config dictionary.  Each value is read in the shape the code
writes (a boundary range loads as a two-element list); a key whose value
does not have that shape is treated as absent. -/
def loadedConfig (entries : List (String × PyValue)) : ConfigDoc :=
  { cfg_scale_type :=
      match entries.lookup "scale_type" with
      | some (PyValue.pstr s) => some s
      | _ => none
    cfg_grade_mappings :=
      match entries.lookup "grade_mappings" with
      | some (PyValue.pdict ms) =>
        some (ms.filterMap (fun p =>
          match p.2 with
          | PyValue.pnum q => some (p.1, q)
          | _ => none))
      | _ => none
    cfg_grade_boundaries :=
      match entries.lookup "grade_boundaries" with
      | some (PyValue.pdict bs) =>
        some (bs.filterMap (fun p =>
          match p.2 with
          | PyValue.plist [PyValue.pnum lo, PyValue.pnum hi] => some (p.1, lo, hi)
          | _ => none))
      | _ => none
    cfg_passing_grade :=
      match entries.lookup "passing_grade" with
      | some (PyValue.pstr s) => some s
      | _ => none }

/-- `GradeScale.from_yaml` (src/src/grading.py): `yaml.safe_load` the
document — propagating its `ConstructorError` — then construct a scale
with `scale_type = config.get('scale_type', '4.0')` and the whole loaded
dictionary as the custom config.  A document that loads to something
other than a dictionary makes the `config.get` call raise
(`AttributeError`), modelled as an error as well. -/
def from_yaml (n : YamlNode) : Except String GradeScale :=
  match safe_load n with
  | Except.error e => Except.error e
  | Except.ok (PyValue.pdict entries) =>
    Except.ok (mkGradeScale ((loadedConfig entries).cfg_scale_type.getD "4.0")
      (some (loadedConfig entries)))
  | Except.ok _ => Except.error "configuration document is not a mapping"

/-- `create_custom_grade_scale` (src/src/grading.py). -/
def create_custom_grade_scale (grade_mappings : List (String × Rat))
    (grade_boundaries : List (String × Rat × Rat)) (passing_grade : String) : GradeScale :=
  mkGradeScale "custom"
    (some { cfg_scale_type := none
            cfg_grade_mappings := some grade_mappings
            cfg_grade_boundaries := some grade_boundaries
            cfg_passing_grade := some passing_grade })

/-! ## grading.py: compute_student_gpa -/

/-- One element of the `student_records` list of dicts passed to
`compute_student_gpa`: each key is present (`some`) or absent (`none`,
in which case `record.get(key, 0)` yields `0`). -/
structure StudentCourseRecord where
  marksKey : Option Rat
  creditHoursKey : Option Rat
deriving Repr, DecidableEq

/-- The shared accumulation loop of `compute_student_gpa`
(src/src/grading.py) and `_calculate_student_gpa` (src/src/analytics.py):
records with non-positive credits are skipped; the accumulator is
`(total_points, total_credits)`. -/
def gpaAccum (s : GradeScale) (rows : List (Rat × Rat)) : Rat × Rat :=
  rows.foldl
    (fun acc r =>
      if 0 < r.2 then (acc.1 + marks_to_points s r.1 * r.2, acc.2 + r.2) else acc)
    (0, 0)

/-- `compute_student_gpa` (src/src/grading.py): 0.0 for an empty list or
zero accumulated credits, else the credit-weighted mean of grade points
rounded to 3 decimals. -/
def compute_student_gpa (records : List StudentCourseRecord) (s : GradeScale) : Rat :=
  if records.isEmpty then 0
  else if (gpaAccum s (records.map (fun r => (r.marksKey.getD 0, r.creditHoursKey.getD 0)))).2 = 0
  then 0
  else round3
    ((gpaAccum s (records.map (fun r => (r.marksKey.getD 0, r.creditHoursKey.getD 0)))).1 /
     (gpaAccum s (records.map (fun r => (r.marksKey.getD 0, r.creditHoursKey.getD 0)))).2)

/-! ## analytics.py -/

/-- One row of the analytics DataFrame; only the columns the analytics
functions read are modelled. -/
structure Row where
  studentID : String
  courseCode : String
  marks : Rat
  creditHours : Rat
deriving Repr, DecidableEq

/-- The analytics DataFrame: rows plus presence flags for the columns
the code tests with `'...' in df.columns`. -/
structure Table where
  hasStudentID : Bool
  hasMarks : Bool
  hasCreditHours : Bool
  hasCourseCode : Bool
  rows : List Row
deriving Repr, DecidableEq

/-- `_calculate_student_gpa` (src/src/analytics.py): 0.0 if the slice is
empty or a required column is absent, else the same credit-weighted loop
as `compute_student_gpa`. -/
def calculate_student_gpa (hasMarks hasCreditHours : Bool) (rows : List Row)
    (s : GradeScale) : Rat :=
  if rows.isEmpty || !hasMarks || !hasCreditHours then 0
  else if (gpaAccum s (rows.map (fun r => (r.marks, r.creditHours)))).2 = 0 then 0
  else round3
    ((gpaAccum s (rows.map (fun r => (r.marks, r.creditHours)))).1 /
     (gpaAccum s (rows.map (fun r => (r.marks, r.creditHours)))).2)

/-- `pandas.Series.unique`: distinct values in first-encounter order
(structural recursion with a seen-accumulator). -/
def firstOccsAux (seen : List String) : List String → List String
  | [] => []
  | x :: xs =>
    if x ∈ seen then firstOccsAux seen xs else x :: firstOccsAux (x :: seen) xs

/-- Distinct values of a column in first-encounter order. -/
def firstOccs (l : List String) : List String := firstOccsAux [] l

/-- Python's `list.sort(key=..., reverse=True)` is a stable descending
sort; a stable sort is determined by the order relation, so it is
modelled by `List.insertionSort` with the relation `key b ≤ key a`. -/
def sortDesc (key : α → Rat) (l : List α) : List α :=
  l.insertionSort (fun a b => key b ≤ key a)

/-- One element of the list built by `top_n_students`
(src/src/analytics.py); the purely presentational fields (name,
department, semester) read from other columns are not modelled. -/
structure StudentEntry where
  student_id : String
  gpa : Rat
  total_credits : Rat
  courses_count : Nat
deriving Repr, DecidableEq

/-- The per-student loop body of `top_n_students` (src/src/analytics.py):
GPA via `_calculate_student_gpa` when a scale is given and both columns
exist, else the marks/25 proxy; the entry stores `round(float(gpa), 3)`. -/
def mkStudentEntry (t : Table) (scale : Option GradeScale) (sid : String) : StudentEntry :=
  let recs := t.rows.filter (fun r => decide (r.studentID = sid))
  let gpa : Rat :=
    if scale.isSome && t.hasMarks && t.hasCreditHours then
      calculate_student_gpa t.hasMarks t.hasCreditHours recs (scale.getD scale40)
    else if t.hasMarks then
      (if recs.length = 0 then 0 else (recs.map Row.marks).sum / recs.length) / 25
    else 0
  { student_id := sid
    gpa := round3 gpa
    total_credits := if t.hasCreditHours then (recs.map Row.creditHours).sum else 0
    courses_count := recs.length }

/-- The unsorted per-student list built by `top_n_students`, one entry
per distinct `StudentID` in encounter order. -/
def perStudentEntries (t : Table) (scale : Option GradeScale) : List StudentEntry :=
  (firstOccs (t.rows.map Row.studentID)).map (mkStudentEntry t scale)

/-- `top_n_students` (src/src/analytics.py): `[]` for an empty frame or a
missing `StudentID` column; else the per-student entries sorted by GPA
descending (stable) and truncated to the first `n`. -/
def top_n_students (t : Table) (n : Nat) (scale : Option GradeScale) : List StudentEntry :=
  if t.rows.isEmpty || !t.hasStudentID then []
  else (sortDesc StudentEntry.gpa (perStudentEntries t scale)).take n

/-- One element of the list built by `subject_stats`
(src/src/analytics.py); the presentational fields (course name,
department, top scorer) read from other columns are not modelled. -/
structure SubjectStat where
  course_code : String
  total_students : Nat
  average_marks : Rat
  pass_rate : Rat
  credit_hours : Rat
deriving Repr, DecidableEq

/-- The per-course loop body of `subject_stats` (src/src/analytics.py). -/
def mkSubjectStat (t : Table) (scale : Option GradeScale) (code : String) : SubjectStat :=
  let recs := t.rows.filter (fun r => decide (r.courseCode = code))
  let total : Nat := recs.length
  let avg : Rat := if t.hasMarks then
      (if total = 0 then 0 else (recs.map Row.marks).sum / total) else 0
  let passing : Nat :=
    match scale with
    | some s =>
      if t.hasMarks then
        (recs.filter (fun r => decide (grade_to_points s s.passing_grade * 25 ≤ r.marks))).length
      else 0
    | none =>
      if t.hasMarks then (recs.filter (fun r => decide ((60:Rat) ≤ r.marks))).length else 0
  let rate : Rat := if total = 0 then 0 else (passing * 100 : Rat) / total
  { course_code := code
    total_students := total
    average_marks := round2 avg
    pass_rate := round2 rate
    credit_hours := round1 (if t.hasCreditHours then
      ((recs.headD { studentID := "", courseCode := code, marks := 0, creditHours := 0 }).creditHours)
      else 0) }

/-- The sorted per-course list of `subject_stats`: one stat per distinct
`CourseCode` in encounter order, then a stable sort by `average_marks`
descending. -/
def subjectStatsCore (t : Table) (scale : Option GradeScale) : List SubjectStat :=
  sortDesc SubjectStat.average_marks
    ((firstOccs (t.rows.map Row.courseCode)).map (mkSubjectStat t scale))

/-- `subject_stats` (src/src/analytics.py): the body is wrapped in a
`try` that re-raises as `ValueError`, so the result type is `Except`;
an empty frame or a missing `CourseCode` column yields `ok []` (an early
`return []`, not an exception). -/
def subject_stats (t : Table) (scale : Option GradeScale) :
    Except String (List SubjectStat) :=
  if t.rows.isEmpty || !t.hasCourseCode then Except.ok []
  else Except.ok (subjectStatsCore t scale)

/-! ## data_loader.py: coerce_data_types -/

/-- One cell of the raw loaded DataFrame: a number, a string, or a
missing value (`NaN`/`None`). -/
inductive Cell where
  | num (q : Rat)
  | str (s : String)
  | missing
deriving Repr, DecidableEq

/-- Python's `str.strip()` (and the surrounding-whitespace tolerance of
numeric parsing): drop whitespace characters from both ends, written by
structural recursion over the character list. -/
def pyStrip (s : String) : String :=
  String.mk (((s.data.dropWhile Char.isWhitespace).reverse.dropWhile
    Char.isWhitespace).reverse)

/-- A decimal-literal parser standing for the numeric conversion done by
`pandas.to_numeric`: optional sign, digits, optional fraction part. -/
def parseRat (s : String) : Option Rat :=
  let t := pyStrip s
  let (sign, body) :=
    if t.startsWith "-" then ((-1 : Rat), t.drop 1)
    else if t.startsWith "+" then ((1 : Rat), t.drop 1)
    else ((1 : Rat), t)
  match body.splitOn "." with
  | [w] => (w.toNat?).map (fun n => sign * (n : Rat))
  | [w, f] =>
    match w.toNat?, f.toNat? with
    | some n, some m => some (sign * ((n : Rat) + (m : Rat) / ((10 : Rat) ^ f.length)))
    | _, _ => none
  | _ => none

/-- `pd.to_numeric(col, errors='coerce')` on one cell: unparseable
values become the missing-value marker `NaN`, never an error. -/
def toNumericCoerce : Cell → Cell
  | Cell.num q => Cell.num q
  | Cell.str s => match parseRat s with
    | some q => Cell.num q
    | none => Cell.missing
  | Cell.missing => Cell.missing

/-- `col.astype(str).str.strip()` on one cell: every cell becomes a
string; a missing value becomes the literal string "nan" (Python
`str(nan)`), which is no longer a missing value. -/
def astypeStrStrip : Cell → Cell
  | Cell.num q => Cell.str (toString q)
  | Cell.str s => Cell.str (pyStrip s)
  | Cell.missing => Cell.str "nan"

/-- `pd.isna` on one cell. -/
def cellIsMissing : Cell → Bool
  | Cell.missing => true
  | _ => false

/-- One row of the loaded frame with the full canonical column set (the
claim concerns frames that passed column validation, so every
`'col' in df.columns` guard in `coerce_data_types` is satisfied). -/
structure LoadedRow where
  studentID : Cell
  name : Cell
  department : Cell
  semester : Cell
  courseCode : Cell
  courseName : Cell
  creditHours : Cell
  marks : Cell
deriving Repr, DecidableEq

/-- `coerce_data_types` (src/src/data_loader.py): numeric coercion of
CreditHours and Marks, string coercion and trim of the six string
columns, then a `dropna` pass for each of StudentID, Name, Marks,
CreditHours in that order. -/
def coerce_data_types (rows : List LoadedRow) : List LoadedRow :=
  let rows := rows.map (fun r =>
    { r with creditHours := toNumericCoerce r.creditHours,
             marks := toNumericCoerce r.marks })
  let rows := rows.map (fun r =>
    { r with studentID := astypeStrStrip r.studentID,
             name := astypeStrStrip r.name,
             department := astypeStrStrip r.department,
             semester := astypeStrStrip r.semester,
             courseCode := astypeStrStrip r.courseCode,
             courseName := astypeStrStrip r.courseName })
  let rows := rows.filter (fun r => !cellIsMissing r.studentID)
  let rows := rows.filter (fun r => !cellIsMissing r.name)
  let rows := rows.filter (fun r => !cellIsMissing r.marks)
  rows.filter (fun r => !cellIsMissing r.creditHours)

end UPA

namespace UPA

/-! ## Helper lemmas -/

/-- `round` is monotone on `Rat`. -/
theorem roundRat_mono {x y : Rat} (h : x ≤ y) : round x ≤ round y := by
  rw [round_eq, round_eq]
  exact Int.floor_le_floor (by linarith)

/-- Rounding to 3 decimals preserves membership in `[0, 4]`. -/
theorem round3_mem_Icc {x : Rat} (h0 : 0 ≤ x) (h4 : x ≤ 4) :
    0 ≤ round3 x ∧ round3 x ≤ 4 := by
  have hlo : (0 : ℤ) ≤ round (x * 1000) := by
    have := roundRat_mono (by linarith : (0 : Rat) ≤ x * 1000)
    simpa using this
  have hhi : round (x * 1000) ≤ 4000 := by
    have hc : ((4000 : ℤ) : Rat) = (4000 : Rat) := by norm_num
    have := roundRat_mono (show x * 1000 ≤ ((4000 : ℤ) : Rat) by rw [hc]; linarith)
    rwa [round_intCast] at this
  constructor
  · unfold round3
    positivity
  · unfold round3
    rw [div_le_iff₀ (by norm_num : (0:Rat) < 1000)]
    exact_mod_cast le_trans hhi (by norm_num)

/-- A successful association-list lookup is a membership. -/
theorem lookup_mem : ∀ {l : List (String × Rat)} {g : String} {p : Rat},
    l.lookup g = some p → (g, p) ∈ l := by
  intro l
  induction l with
  | nil => intro g p h; simp [List.lookup] at h
  | cons x t ih =>
    intro g p h
    rw [List.lookup] at h
    by_cases hg : g = x.1
    · subst hg
      rw [beq_self_eq_true] at h
      simp only at h
      cases h
      exact List.mem_cons_self _ _
    · rw [beq_eq_false_iff_ne.2 hg] at h
      simp only at h
      exact List.mem_cons_of_mem _ (ih h)

/-- Every point value of the built-in "4.0" scale lies in `[0, 4]`. -/
theorem grade_to_points_scale40_mem (g : String) :
    0 ≤ grade_to_points scale40 g ∧ grade_to_points scale40 g ≤ 4 := by
  have hall : ∀ q ∈ mappings40, 0 ≤ q.2 ∧ q.2 ≤ 4 := by
    intro q hq
    fin_cases hq <;> norm_num
  unfold grade_to_points
  split
  · norm_num
  · have hmap : scale40.grade_mappings = mappings40 := rfl
    rw [hmap]
    cases hl : mappings40.lookup g with
    | none => norm_num
    | some p => exact hall (g, p) (lookup_mem hl)

/-- `marks_to_points` on the built-in "4.0" scale lies in `[0, 4]` for
every mark value. -/
theorem marks_to_points_scale40_mem (m : Rat) :
    0 ≤ marks_to_points scale40 m ∧ marks_to_points scale40 m ≤ 4 :=
  grade_to_points_scale40_mem (marks_to_grade scale40 m)

/-- The accumulation invariant of the credit-weighted GPA loop: starting
from a state with `0 ≤ points ≤ 4·credits` and `0 ≤ credits`, the loop
preserves it, provided every per-course point value lies in `[0, 4]`. -/
theorem gpaAccum_invariant (s : GradeScale)
    (hpts : ∀ m, 0 ≤ marks_to_points s m ∧ marks_to_points s m ≤ 4)
    (rows : List (Rat × Rat)) :
    0 ≤ (gpaAccum s rows).1 ∧ (gpaAccum s rows).1 ≤ 4 * (gpaAccum s rows).2 ∧
      0 ≤ (gpaAccum s rows).2 := by
  suffices h : ∀ (rows : List (Rat × Rat)) (a c : Rat), 0 ≤ a → a ≤ 4 * c → 0 ≤ c →
      0 ≤ (rows.foldl
        (fun acc r => if 0 < r.2 then (acc.1 + marks_to_points s r.1 * r.2, acc.2 + r.2) else acc)
        (a, c)).1 ∧
      (rows.foldl
        (fun acc r => if 0 < r.2 then (acc.1 + marks_to_points s r.1 * r.2, acc.2 + r.2) else acc)
        (a, c)).1 ≤ 4 * (rows.foldl
        (fun acc r => if 0 < r.2 then (acc.1 + marks_to_points s r.1 * r.2, acc.2 + r.2) else acc)
        (a, c)).2 ∧
      0 ≤ (rows.foldl
        (fun acc r => if 0 < r.2 then (acc.1 + marks_to_points s r.1 * r.2, acc.2 + r.2) else acc)
        (a, c)).2 by
    exact h rows 0 0 le_rfl (by norm_num) le_rfl
  intro rows
  induction rows with
  | nil => intro a c h1 h2 h3; exact ⟨h1, h2, h3⟩
  | cons r t ih =>
    intro a c h1 h2 h3
    simp only [List.foldl_cons]
    by_cases hr : 0 < r.2
    · rw [if_pos hr]
      obtain ⟨hp0, hp4⟩ := hpts r.1
      refine ih _ _ ?_ ?_ ?_
      · have : 0 ≤ marks_to_points s r.1 * r.2 := mul_nonneg hp0 (le_of_lt hr)
        linarith
      · have : marks_to_points s r.1 * r.2 ≤ 4 * r.2 :=
          mul_le_mul_of_nonneg_right hp4 (le_of_lt hr)
        linarith
      · linarith
    · rw [if_neg hr]
      exact ih _ _ h1 h2 h3

/-- If every record of the loop has non-positive credits, the GPA
accumulator stays at `(0, 0)`. -/
theorem gpaAccum_all_nonpos (s : GradeScale) (rows : List (Rat × Rat))
    (h : ∀ r ∈ rows, r.2 ≤ 0) : gpaAccum s rows = (0, 0) := by
  suffices hgen : ∀ (rows : List (Rat × Rat)) (acc : Rat × Rat), (∀ r ∈ rows, r.2 ≤ 0) →
      rows.foldl
        (fun acc r => if 0 < r.2 then (acc.1 + marks_to_points s r.1 * r.2, acc.2 + r.2) else acc)
        acc = acc by
    exact hgen rows (0, 0) h
  intro rows
  induction rows with
  | nil => intro acc _; rfl
  | cons r t ih =>
    intro acc hall
    simp only [List.foldl_cons]
    rw [if_neg (by have := hall r (List.mem_cons_self r t); linarith)]
    exact ih acc (fun x hx => hall x (List.mem_cons_of_mem r hx))

/-- `_calculate_student_gpa` with the built-in "4.0" scale always lies in
`[0, 4]`. -/
theorem calculate_student_gpa_scale40_mem (hm hc : Bool) (rows : List Row) :
    0 ≤ calculate_student_gpa hm hc rows scale40 ∧
      calculate_student_gpa hm hc rows scale40 ≤ 4 := by
  unfold calculate_student_gpa
  split
  · norm_num
  · set pr := rows.map (fun r => (r.marks, r.creditHours)) with hpr
    obtain ⟨h1, h2, h3⟩ := gpaAccum_invariant scale40 marks_to_points_scale40_mem pr
    split
    · norm_num
    · rename_i hne
      have hcpos : 0 < (gpaAccum scale40 pr).2 := lt_of_le_of_ne h3 (Ne.symm hne)
      refine round3_mem_Icc (div_nonneg h1 h3) ?_
      rw [div_le_iff₀ hcpos]
      linarith

end UPA

namespace UPA

/-- The descending comparison used by `sortDesc` is total. -/
theorem sortDescRel_total (key : α → Rat) :
    IsTotal α (fun a b => key b ≤ key a) :=
  ⟨fun a b => le_total (key b) (key a)⟩

/-- The descending comparison used by `sortDesc` is transitive. -/
theorem sortDescRel_trans (key : α → Rat) :
    IsTrans α (fun a b => key b ≤ key a) :=
  ⟨fun _ _ _ h1 h2 => le_trans h2 h1⟩

/-- `sortDesc` permutes its input. -/
theorem sortDesc_perm (key : α → Rat) (l : List α) :
    List.Perm (sortDesc key l) l :=
  List.perm_insertionSort _ l

/-- `sortDesc` preserves length. -/
theorem sortDesc_length (key : α → Rat) (l : List α) :
    (sortDesc key l).length = l.length :=
  (sortDesc_perm key l).length_eq

/-- The output of `sortDesc` is pairwise descending in the key. -/
theorem sortDesc_pairwise (key : α → Rat) (l : List α) :
    List.Pairwise (fun a b => key b ≤ key a) (sortDesc key l) := by
  haveI := sortDescRel_total key
  haveI := sortDescRel_trans key
  exact List.sorted_insertionSort _ l

/-- Stability of `sortDesc`: for every key value `g`, the elements whose
key equals `g` appear in the output in the same order as in the input
(this is exactly the stability guarantee of Python list.sort). -/
theorem sortDesc_filter_eq (key : α → Rat) (g : Rat) (l : List α) :
    (sortDesc key l).filter (fun a => decide (key a = g)) =
      l.filter (fun a => decide (key a = g)) := by
  induction l with
  | nil => rfl
  | cons x xs ih =>
    show (List.orderedInsert _ x (sortDesc key xs)).filter _ = _
    rw [List.orderedInsert_eq_take_drop]
    by_cases hx : key x = g
    · rw [List.filter_append]
      have htake : ((sortDesc key xs).takeWhile fun b => ¬(fun a b => key b ≤ key a) x b).filter
          (fun a => decide (key a = g)) = [] := by
        rw [List.filter_eq_nil_iff]
        intro a ha
        have hpa := List.mem_takeWhile_imp ha
        simp only [decide_eq_true_eq] at hpa ⊢
        intro hag
        exact hpa (by rw [hag, ← hx])
      rw [htake]
      have hxKeep : (x :: (sortDesc key xs).dropWhile fun b => ¬(fun a b => key b ≤ key a) x b).filter
          (fun a => decide (key a = g)) =
          x :: ((sortDesc key xs).dropWhile fun b => ¬(fun a b => key b ≤ key a) x b).filter
          (fun a => decide (key a = g)) := by
        rw [List.filter_cons_of_pos (by simp [hx])]
      rw [hxKeep]
      have hsplit : ((sortDesc key xs).takeWhile fun b => ¬(fun a b => key b ≤ key a) x b).filter
            (fun a => decide (key a = g)) ++
          ((sortDesc key xs).dropWhile fun b => ¬(fun a b => key b ≤ key a) x b).filter
            (fun a => decide (key a = g)) =
          (sortDesc key xs).filter (fun a => decide (key a = g)) := by
        rw [← List.filter_append, List.takeWhile_append_dropWhile]
      rw [htake] at hsplit
      simp only [List.nil_append] at hsplit ⊢
      rw [hsplit, ih, List.filter_cons_of_pos (by simp [hx])]
    · rw [List.filter_append, List.filter_cons_of_neg (by simp [hx])]
      rw [← List.filter_append, List.takeWhile_append_dropWhile, ih,
        List.filter_cons_of_neg (by simp [hx])]

/-- Elements produced by `firstOccsAux` avoid the seen-accumulator and
are distinct. -/
theorem firstOccsAux_nodup_and_fresh :
    ∀ (l seen : List String),
      (firstOccsAux seen l).Nodup ∧ ∀ a ∈ firstOccsAux seen l, a ∉ seen := by
  intro l
  induction l with
  | nil => intro seen; exact ⟨List.nodup_nil, by intro a ha; simp [firstOccsAux] at ha⟩
  | cons x xs ih =>
    intro seen
    rw [firstOccsAux]
    by_cases hx : x ∈ seen
    · rw [if_pos hx]; exact ih seen
    · rw [if_neg hx]
      obtain ⟨hnd, hfresh⟩ := ih (x :: seen)
      refine ⟨List.nodup_cons.2 ⟨?_, hnd⟩, ?_⟩
      · intro hmem
        exact (hfresh x hmem) (List.mem_cons_self x seen)
      · intro a ha
        rcases List.mem_cons.1 ha with rfl | ha2
        · exact hx
        · exact fun hs => (hfresh a ha2) (List.mem_cons_of_mem x hs)

/-- The distinct-values list `firstOccs` has no duplicates. -/
theorem firstOccs_nodup (l : List String) : (firstOccs l).Nodup :=
  (firstOccsAux_nodup_and_fresh l []).1

/-- `firstOccs` of an empty column is empty. -/
theorem firstOccs_nil : firstOccs [] = [] := rfl

/-- The ids of the unsorted per-student entries are exactly the distinct
StudentID values in encounter order. -/
theorem perStudentEntries_map_id (t : Table) (scale : Option GradeScale) :
    (perStudentEntries t scale).map StudentEntry.student_id =
      firstOccs (t.rows.map Row.studentID) := by
  unfold perStudentEntries
  rw [List.map_map]
  have : StudentEntry.student_id ∘ mkStudentEntry t scale = id := by
    funext sid; rfl
  rw [this, List.map_id]

end UPA


namespace UPA

/-! ## Shared evaluation lemmas for the default "4.0" scale -/

/-- 85 falls in the B range (83-86) of the "4.0" boundary table. -/
theorem marks_to_grade_85 : marks_to_grade scale40 85 = "B" := by
  norm_num [marks_to_grade, scale40, mkGradeScale, get_grade_boundaries, boundaries40,
    List.find?]

/-- 90 falls in the A- range (90-92) of the "4.0" boundary table. -/
theorem marks_to_grade_90 : marks_to_grade scale40 90 = "A-" := by
  norm_num [marks_to_grade, scale40, mkGradeScale, get_grade_boundaries, boundaries40,
    List.find?]

/-- 78 falls in the C+ range (77-79) of the "4.0" boundary table. -/
theorem marks_to_grade_78 : marks_to_grade scale40 78 = "C+" := by
  norm_num [marks_to_grade, scale40, mkGradeScale, get_grade_boundaries, boundaries40,
    List.find?]

/-- Grade B carries 3.0 points on the "4.0" scale. -/
theorem grade_to_points_B : grade_to_points scale40 "B" = 3 := by
  simp [grade_to_points, scale40, mkGradeScale, get_grade_mapping, mappings40, List.lookup]

/-- Grade A- carries 3.7 points on the "4.0" scale. -/
theorem grade_to_points_Aminus : grade_to_points scale40 "A-" = (3.7 : Rat) := by
  simp [grade_to_points, scale40, mkGradeScale, get_grade_mapping, mappings40, List.lookup]

/-- Grade C+ carries 2.3 points on the "4.0" scale. -/
theorem grade_to_points_Cplus : grade_to_points scale40 "C+" = (2.3 : Rat) := by
  simp [grade_to_points, scale40, mkGradeScale, get_grade_mapping, mappings40, List.lookup]

/-- Marks of 85 yield 3.0 points on the "4.0" scale. -/
theorem marks_to_points_85 : marks_to_points scale40 85 = 3 := by
  unfold marks_to_points
  rw [marks_to_grade_85, grade_to_points_B]

/-- Marks of 90 yield 3.7 points on the "4.0" scale. -/
theorem marks_to_points_90 : marks_to_points scale40 90 = (3.7 : Rat) := by
  unfold marks_to_points
  rw [marks_to_grade_90, grade_to_points_Aminus]

/-- Marks of 78 yield 2.3 points on the "4.0" scale. -/
theorem marks_to_points_78 : marks_to_points scale40 78 = (2.3 : Rat) := by
  unfold marks_to_points
  rw [marks_to_grade_78, grade_to_points_Cplus]

/-- The record list of the spec's worked GPA example:
marks [85, 90, 78] with credit hours [3, 3, 4]. -/
def gpaExampleRecords : List StudentCourseRecord :=
  [⟨some 85, some 3⟩, ⟨some 90, some 3⟩, ⟨some 78, some 4⟩]

/-- The worked example evaluates to (3·3 + 3.7·3 + 2.3·4)/10 = 2.93. -/
theorem compute_student_gpa_example :
    compute_student_gpa gpaExampleRecords scale40 = (2.93 : Rat) := by
  norm_num [compute_student_gpa, gpaExampleRecords, gpaAccum, List.foldl, Option.getD,
    marks_to_points_85, marks_to_points_90, marks_to_points_78, round3, round_eq]

/-! ## Claims -/

/-- C1 counterexample: on the code's boundary table, 85 falls in
B (83-86) and 90 in A- (90-92), so the spec example's grades [A-, A, C+]
and its GPA of 3.23 are both wrong on this input. -/
theorem c1_spec_example_false :
    marks_to_grade scale40 85 ≠ "A-" ∧ marks_to_grade scale40 90 ≠ "A" ∧
      compute_student_gpa gpaExampleRecords scale40 ≠ (3.23 : Rat) := by
  refine ⟨?_, ?_, ?_⟩
  · rw [marks_to_grade_85]; decide
  · rw [marks_to_grade_90]; decide
  · rw [compute_student_gpa_example]; norm_num

/-- C1 (amended): with the stated boundaries applied as written, marks
[85, 90, 78] grade to [B, A-, C+] with points [3.0, 3.7, 2.3], and the
credit-weighted GPA is (3.0·3 + 3.7·3 + 2.3·4)/10 = 2.93 exactly. -/
theorem c1_weighted_gpa_example :
    marks_to_grade scale40 85 = "B" ∧ marks_to_grade scale40 90 = "A-" ∧
      marks_to_grade scale40 78 = "C+" ∧
      grade_to_points scale40 "B" = 3 ∧
      grade_to_points scale40 "A-" = (3.7 : Rat) ∧
      grade_to_points scale40 "C+" = (2.3 : Rat) ∧
      compute_student_gpa gpaExampleRecords scale40 = (2.93 : Rat) :=
  ⟨marks_to_grade_85, marks_to_grade_90, marks_to_grade_78, grade_to_points_B,
    grade_to_points_Aminus, grade_to_points_Cplus, compute_student_gpa_example⟩

/-- C2: for every grade scale, the single-student GPA computations return
0.0 (and, being total functions, cannot raise) on an empty record list,
on records none of which has positive credit hours, on records from
which both the Marks and CreditHours keys are absent, and (for the
analytics variant) whenever a required column is absent. -/
theorem compute_student_gpa_degenerate (s : GradeScale)
    (rs1 rs2 : List StudentCourseRecord) (hm hc : Bool) (rows : List Row)
    (h1 : ∀ r ∈ rs1, r.creditHoursKey.getD 0 ≤ 0)
    (h2 : ∀ r ∈ rs2, r.marksKey = none ∧ r.creditHoursKey = none)
    (h3 : hm = false ∨ hc = false) :
    compute_student_gpa [] s = 0 ∧ compute_student_gpa rs1 s = 0 ∧
      compute_student_gpa rs2 s = 0 ∧ calculate_student_gpa hm hc rows s = 0 := by
  refine ⟨by simp [compute_student_gpa], ?_, ?_, ?_⟩
  · have hacc : gpaAccum s (rs1.map (fun r => (r.marksKey.getD 0, r.creditHoursKey.getD 0)))
        = (0, 0) := by
      refine gpaAccum_all_nonpos s _ ?_
      intro p hp
      obtain ⟨r, hr, rfl⟩ := List.mem_map.1 hp
      exact h1 r hr
    unfold compute_student_gpa
    split
    · rfl
    · rw [hacc]
      simp
  · have hacc : gpaAccum s (rs2.map (fun r => (r.marksKey.getD 0, r.creditHoursKey.getD 0)))
        = (0, 0) := by
      refine gpaAccum_all_nonpos s _ ?_
      intro p hp
      obtain ⟨r, hr, rfl⟩ := List.mem_map.1 hp
      rw [(h2 r hr).2]
      exact le_refl 0
    unfold compute_student_gpa
    split
    · rfl
    · rw [hacc]
      simp
  · unfold calculate_student_gpa
    rcases h3 with rfl | rfl
    · simp
    · simp

/-- C2 witness: the degenerate cases evaluated on concrete inputs. -/
theorem compute_student_gpa_degenerate_witness :
    compute_student_gpa [] scale40 = 0 ∧
      compute_student_gpa [⟨some 90, some 0⟩] scale40 = 0 ∧
      compute_student_gpa [⟨none, none⟩] scale40 = 0 ∧
      calculate_student_gpa false true [] scale40 = 0 :=
  compute_student_gpa_degenerate scale40 [⟨some 90, some 0⟩] [⟨none, none⟩] false true []
    (by decide) (by decide) (Or.inl rfl)

/-- C3: every per-student GPA computed with the built-in "4.0" scale lies
in [0, 4], both directly via `_calculate_student_gpa` (the single
primitive invoked by every aggregate view) and as the `gpa` field of
every entry `top_n_students` produces from it. -/
theorem gpa_range_40_scale (hm hc : Bool) (rows : List Row) (t : Table) (n : Nat)
    (e : StudentEntry) (hM : t.hasMarks = true) (hC : t.hasCreditHours = true)
    (he : e ∈ top_n_students t n (some scale40)) :
    (0 ≤ calculate_student_gpa hm hc rows scale40 ∧
      calculate_student_gpa hm hc rows scale40 ≤ 4) ∧
    (0 ≤ e.gpa ∧ e.gpa ≤ 4) := by
  refine ⟨calculate_student_gpa_scale40_mem hm hc rows, ?_⟩
  unfold top_n_students at he
  split at he
  · exact absurd he (List.not_mem_nil e)
  · have he2 : e ∈ sortDesc StudentEntry.gpa (perStudentEntries t (some scale40)) :=
      List.mem_of_mem_take he
    have he3 : e ∈ perStudentEntries t (some scale40) :=
      (sortDesc_perm _ _).subset he2
    obtain ⟨sid, hsid, rfl⟩ := List.mem_map.1 he3
    have hgpa : (mkStudentEntry t (some scale40) sid).gpa =
        round3 (calculate_student_gpa t.hasMarks t.hasCreditHours
          (t.rows.filter (fun r => decide (r.studentID = sid))) scale40) := by
      unfold mkStudentEntry
      simp [hM, hC]
    rw [hgpa]
    obtain ⟨ha, hb⟩ := calculate_student_gpa_scale40_mem t.hasMarks t.hasCreditHours
      (t.rows.filter (fun r => decide (r.studentID = sid)))
    exact round3_mem_Icc ha hb

/-- A one-row table used to instantiate the GPA range invariant. -/
def rangeWitnessTable : Table :=
  ⟨true, true, true, true, [⟨"S1", "C1", 90, 3⟩]⟩

/-- C3 witness: the range bounds on a one-row table and its leaderboard
entry. -/
theorem gpa_range_40_scale_witness :
    (0 ≤ calculate_student_gpa true true [⟨"S1", "C1", 90, 3⟩] scale40 ∧
      calculate_student_gpa true true [⟨"S1", "C1", 90, 3⟩] scale40 ≤ 4) ∧
    (0 ≤ (mkStudentEntry rangeWitnessTable (some scale40) "S1").gpa ∧
      (mkStudentEntry rangeWitnessTable (some scale40) "S1").gpa ≤ 4) :=
  gpa_range_40_scale true true [⟨"S1", "C1", 90, 3⟩] rangeWitnessTable 1
    (mkStudentEntry rangeWitnessTable (some scale40) "S1") rfl rfl
    (by rw [show top_n_students rangeWitnessTable 1 (some scale40) =
          [mkStudentEntry rangeWitnessTable (some scale40) "S1"] from rfl]
        exact List.mem_cons_self _ _)

/-- C4: evaluating the export/import round trip at the failing input:
the default "4.0" scale's boundary ranges are Python tuples, so
`export_config` writes them as `!!python/tuple`-tagged sequences, and
`from_yaml`'s `yaml.safe_load` has no constructor for that tag and
raises — the round trip errors instead of reconstructing the scale,
contradicting the repository's own `test_export_config`. -/
theorem roundtrip_raises_on_tuple_boundaries :
    from_yaml (export_config scale40) =
      Except.error
        "could not determine a constructor for the tag tag:yaml.org,2002:python/tuple" := by
  simp [from_yaml, export_config, safe_load, safeLoadList, safeLoadEntries, scale40,
    mkGradeScale, get_grade_mapping, get_grade_boundaries, mappings40, boundaries40]

/-- A custom scale whose passing grade "F" is in the boundary table but
carries 0.0 points, so unknown grades (0.0 points) compare as passing. -/
def zeroPassScale : GradeScale :=
  create_custom_grade_scale [("A", 4), ("F", 0)] [("A", 90, 100), ("F", 0, 89)] "F"

/-- C5 counterexample: on `zeroPassScale` the unknown grade "Z" is
reported as passing, contradicting "returns false for every unknown
grade" (the biconditional forces this whenever the passing grade has 0
points). -/
theorem is_passing_grade_unknown_passes :
    zeroPassScale.grade_mappings.lookup "Z" = none ∧
      is_passing_grade zeroPassScale "Z" = true := by
  decide

/-- `grade_to_points` of the empty grade is 0. -/
theorem grade_to_points_empty (s : GradeScale) : grade_to_points s "" = 0 := by
  simp [grade_to_points]

/-- `grade_to_points` of a grade missing from the mappings is 0. -/
theorem grade_to_points_of_lookup_none (s : GradeScale) (g : String)
    (h : s.grade_mappings.lookup g = none) : grade_to_points s g = 0 := by
  unfold grade_to_points
  by_cases hg : g = ""
  · rw [if_pos hg]
  · rw [if_neg hg, h]

/-- C5 (amended): for every scale whose passing grade is a key of the
boundary table and has strictly positive points, `is_passing_grade g`
holds iff the points of `g` reach the passing grade's points, and every
unknown or empty grade is reported as not passing. -/
theorem is_passing_grade_amended (s : GradeScale) (g : String)
    (hb : s.grade_boundaries.any (fun b => decide (b.1 = s.passing_grade)) = true)
    (hp : 0 < grade_to_points s s.passing_grade) :
    (is_passing_grade s g = true ↔
      grade_to_points s s.passing_grade ≤ grade_to_points s g) ∧
    ((g = "" ∨ s.grade_mappings.lookup g = none) → is_passing_grade s g = false) := by
  constructor
  · unfold is_passing_grade
    by_cases hg : g = ""
    · rw [if_pos hg]
      constructor
      · intro hfalse; exact absurd hfalse (by simp)
      · intro hle
        exfalso
        rw [hg, grade_to_points_empty] at hle
        linarith
    · rw [if_neg hg, if_pos hb]
      exact decide_eq_true_iff
  · intro hcase
    unfold is_passing_grade
    rcases hcase with hg | hnone
    · rw [if_pos hg]
    · by_cases hg : g = ""
      · rw [if_pos hg]
      · rw [if_neg hg, if_pos hb, grade_to_points_of_lookup_none s g hnone]
        exact decide_eq_false (by intro hle; simp only [ge_iff_le] at hle; linarith)

/-- C5 witness: the amended biconditional at the default scale and a
known grade. -/
theorem is_passing_grade_amended_witness :
    is_passing_grade scale40 "B" = true ↔
      grade_to_points scale40 scale40.passing_grade ≤ grade_to_points scale40 "B" :=
  (is_passing_grade_amended scale40 "B" (by decide) (by decide)).1

/-- C6 counterexample: on a non-empty table without a CourseCode column
`subject_stats` returns `ok []` — an ordinary empty result, not the
aggregated error the claim asserts. -/
theorem subject_stats_no_course_code_ok :
    subject_stats ⟨true, true, true, false, [⟨"S001", "CS101", 85, 3⟩]⟩ (some scale40) =
      Except.ok [] := rfl

/-- C6 (amended): `subject_stats` returns the empty list (successfully,
with no error) both when the input table is empty and when the
CourseCode column is absent. -/
theorem subject_stats_degenerate (t : Table) (scale : Option GradeScale)
    (h : t.rows = [] ∨ t.hasCourseCode = false) :
    subject_stats t scale = Except.ok [] := by
  unfold subject_stats
  rcases h with h | h
  · rw [h]
    rfl
  · rw [h]
    simp

/-- C6 witness: the empty-table case. -/
theorem subject_stats_degenerate_witness :
    subject_stats ⟨true, true, true, true, []⟩ none = Except.ok [] :=
  subject_stats_degenerate ⟨true, true, true, true, []⟩ none (Or.inl rfl)

/-- The three-row frame of the repository's own
`test_coerce_data_types_missing_critical_data`: the third row has a
missing Name. -/
def coerceBugFrame : List LoadedRow :=
  [⟨Cell.str "S001", Cell.str "John", Cell.str "CS", Cell.str "Fall",
    Cell.str "CS101", Cell.str "Programming", Cell.num 3, Cell.num 85⟩,
   ⟨Cell.str "S002", Cell.str "Jane", Cell.str "Math", Cell.str "Fall",
    Cell.str "MATH101", Cell.str "Calculus", Cell.num 4, Cell.num 90⟩,
   ⟨Cell.str "S003", Cell.missing, Cell.str "Physics", Cell.str "Fall",
    Cell.str "PHYS101", Cell.str "Mechanics", Cell.num 3, Cell.num 88⟩]

/-- C7: evaluating `coerce_data_types` at the failing input shows that
the row whose Name is missing survives (string coercion turns the
missing value into the literal string "nan" before the dropna pass), so
all 3 rows remain where the claim — and the repository's own test —
expect 2. -/
theorem coerce_keeps_row_with_missing_name :
    (coerce_data_types coerceBugFrame).length = 3 ∧
      (coerce_data_types coerceBugFrame).map LoadedRow.name =
        [Cell.str "John", Cell.str "Jane", Cell.str "nan"] := by
  decide

end UPA

namespace UPA

/-- C8: `top_n_students` returns at most `n` entries with pairwise
distinct student ids, sorted by GPA descending; when the number of
distinct students is below `n` it returns exactly one entry per distinct
student; and the underlying sort is stable — for every GPA value the
equal-GPA entries keep their encounter order. -/
theorem top_n_students_spec (t : Table) (n : Nat) (scale : Option GradeScale)
    (hs : t.hasStudentID = true) :
    (top_n_students t n scale).length ≤ n ∧
    ((top_n_students t n scale).map StudentEntry.student_id).Nodup ∧
    List.Pairwise (fun a b => b.gpa ≤ a.gpa) (top_n_students t n scale) ∧
    ((firstOccs (t.rows.map Row.studentID)).length < n →
      List.Perm ((top_n_students t n scale).map StudentEntry.student_id)
        (firstOccs (t.rows.map Row.studentID))) ∧
    (∀ g : Rat,
      (sortDesc StudentEntry.gpa (perStudentEntries t scale)).filter
          (fun e => decide (e.gpa = g)) =
        (perStudentEntries t scale).filter (fun e => decide (e.gpa = g))) := by
  have hres : top_n_students t n scale =
      (sortDesc StudentEntry.gpa (perStudentEntries t scale)).take n := by
    unfold top_n_students
    rw [hs]
    by_cases hE : t.rows.isEmpty
    · have h0 : t.rows = [] := by
        cases hq : t.rows with
        | nil => rfl
        | cons a l => rw [hq] at hE; simp at hE
      rw [hE]
      simp [perStudentEntries, h0, firstOccs, firstOccsAux, sortDesc]
    · rw [Bool.not_eq_true] at hE
      rw [hE]
      simp
  have hperm : List.Perm
      ((sortDesc StudentEntry.gpa (perStudentEntries t scale)).map StudentEntry.student_id)
      (firstOccs (t.rows.map Row.studentID)) := by
    have h1 := (sortDesc_perm StudentEntry.gpa (perStudentEntries t scale)).map
      StudentEntry.student_id
    rw [perStudentEntries_map_id] at h1
    exact h1
  refine ⟨?_, ?_, ?_, ?_, ?_⟩
  · rw [hres]
    exact List.length_take_le n _
  · rw [hres, List.map_take]
    refine List.Nodup.sublist (List.take_sublist n _) ?_
    exact hperm.nodup_iff.2 (firstOccs_nodup _)
  · rw [hres]
    exact (sortDesc_pairwise _ _).sublist (List.take_sublist n _)
  · intro hlt
    rw [hres]
    have hlen : (sortDesc StudentEntry.gpa (perStudentEntries t scale)).length =
        (firstOccs (t.rows.map Row.studentID)).length := by
      rw [sortDesc_length]
      unfold perStudentEntries
      rw [List.length_map]
    rw [List.take_of_length_le (by omega)]
    exact hperm
  · intro g
    exact sortDesc_filter_eq StudentEntry.gpa g (perStudentEntries t scale)

/-- A two-row table with two distinct students, used to instantiate the
leaderboard specification. -/
def topNWitnessTable : Table :=
  ⟨true, true, true, true, [⟨"S1", "C1", 90, 3⟩, ⟨"S2", "C2", 80, 3⟩]⟩

/-- C8 witness: the bound on the number of returned entries at a
concrete table. -/
theorem top_n_students_spec_witness :
    (top_n_students topNWitnessTable 5 (some scale40)).length ≤ 5 :=
  (top_n_students_spec topNWitnessTable 5 (some scale40) rfl).1

/-- C9: on a non-empty table with a CourseCode column, `subject_stats`
succeeds with the per-course list, which is sorted by `average_marks`
descending and has one entry per distinct course code. -/
theorem subject_stats_sorted_spec (t : Table) (scale : Option GradeScale)
    (h1 : t.rows ≠ []) (h2 : t.hasCourseCode = true) :
    subject_stats t scale = Except.ok (subjectStatsCore t scale) ∧
    List.Pairwise (fun a b => b.average_marks ≤ a.average_marks)
      (subjectStatsCore t scale) ∧
    (subjectStatsCore t scale).length =
      (firstOccs (t.rows.map Row.courseCode)).length := by
  refine ⟨?_, sortDesc_pairwise _ _, ?_⟩
  · unfold subject_stats
    rw [h2]
    have hE : t.rows.isEmpty = false := by
      cases hq : t.rows with
      | nil => exact absurd hq h1
      | cons a l => rfl
    rw [hE]
    rfl
  · unfold subjectStatsCore
    rw [sortDesc_length, List.length_map]

/-- A one-row table used to instantiate the subject-stats specification. -/
def subjectWitnessTable : Table :=
  ⟨true, true, true, true, [⟨"S1", "C1", 85, 3⟩]⟩

/-- C9 witness: the distinct-course-count equality at a concrete table. -/
theorem subject_stats_sorted_spec_witness :
    (subjectStatsCore subjectWitnessTable (some scale40)).length =
      (firstOccs (subjectWitnessTable.rows.map Row.courseCode)).length :=
  (subject_stats_sorted_spec subjectWitnessTable (some scale40)
    (List.cons_ne_nil _ _) rfl).2.2

/-- C10: on the built-in "4.0" scale, a mark strictly between the
inclusive endpoints of two adjacent boundary ranges (62 < m < 63, or
96 < m < 97) matches no range and therefore grades to "F" with 0.0
points, even near the top of the scale. -/
theorem gap_marks_map_to_F (m : Rat)
    (h : (62 < m ∧ m < 63) ∨ (96 < m ∧ m < 97)) :
    marks_to_grade scale40 m = "F" ∧ marks_to_points scale40 m = 0 := by
  have hF : marks_to_grade scale40 m = "F" := by
    unfold marks_to_grade
    have hnone : scale40.grade_boundaries.find?
        (fun b => decide (b.2.1 ≤ m) && decide (m ≤ b.2.2)) = none := by
      rw [List.find?_eq_none]
      intro b hb
      have hbb : b ∈ boundaries40 := hb
      rcases h with ⟨hl, hr⟩ | ⟨hl, hr⟩ <;>
        fin_cases hbb <;>
        simp only [Bool.and_eq_true, decide_eq_true_eq, not_and] <;>
        intro hx hy <;> linarith
    rw [hnone]
  refine ⟨hF, ?_⟩
  unfold marks_to_points
  rw [hF]
  simp [grade_to_points, scale40, mkGradeScale, get_grade_mapping, mappings40, List.lookup]

/-- C10 witness: the gap value 62.5 grades to "F" with 0 points. -/
theorem gap_marks_map_to_F_witness :
    marks_to_grade scale40 (125/2) = "F" ∧ marks_to_points scale40 (125/2) = 0 :=
  gap_marks_map_to_F (125/2) (Or.inl (by norm_num))

end UPA
